import Mathlib

/-
Verification of the request-admission gate of a Next.js/Django JWT demo.

The gate consists of:
  * `middleware` (middleware.ts): prefix-classifies the request path against
    `PROTECTED_PATHS`, verifies the `access_token` cookie, attempts a token
    refresh on expiry, and admits / redirects accordingly.
  * `verifyJWTToken` (middleware.ts): wraps jose's `jwtVerify` and classifies
    a token as valid / expired / invalid.
  * `attemptTokenRefresh` (middleware.ts): fetches the frontend's own
    `/api/users/refresh-token` route and reports success plus any new cookies.
  * `POST` (refresh-token/route.ts): proxies the refresh call to the Django
    backend and re-emits the backend's Set-Cookie headers after parsing them.

JavaScript strings are modelled as lists of characters so that the string
operations used by the source (`split`, `trim`, `toLowerCase`, `startsWith`,
`parseInt`) are fully computable and amenable to induction.
-/

namespace NextAuthGate

/-- JavaScript strings, modelled as lists of characters. -/
abbrev JStr := List Char

/-- Convert a Lean string literal into the character-list model. -/
def str (s : String) : JStr := s.data

/-- Model of JavaScript `String.prototype.toLowerCase` (ASCII range, which is
all the source ever compares). -/
def jsToLower (s : JStr) : JStr := s.map Char.toLower

/-- Model of JavaScript `String.prototype.trim`: remove leading and trailing
whitespace. -/
def jsTrim (s : JStr) : JStr :=
  ((s.dropWhile Char.isWhitespace).reverse.dropWhile Char.isWhitespace).reverse

/-- Model of JavaScript `String.prototype.split` with a single-character
separator: splits at every occurrence, keeping empty segments, and always
returns at least one segment. -/
def jsSplit (sep : Char) : JStr → List JStr
  | [] => [[]]
  | c :: cs =>
    if c = sep then [] :: jsSplit sep cs
    else
      match jsSplit sep cs with
      | [] => [[c]]
      | s :: ss => (c :: s) :: ss

/-- The numeric value of a maximal leading run of decimal digits, or `none`
when the run is empty (JavaScript `NaN`). -/
def parseNatDigits (s : JStr) : Option Nat :=
  let ds := s.takeWhile Char.isDigit
  if ds = [] then none
  else some (ds.foldl (fun acc c => acc * 10 + (c.toNat - '0'.toNat)) 0)

/-- Model of JavaScript `parseInt` on a string argument (radix 10): skip
leading whitespace, read an optional sign and then a maximal run of decimal
digits; `none` models the `NaN` result when no digit is found. -/
def jsParseInt (s : JStr) : Option Int :=
  let t := s.dropWhile Char.isWhitespace
  match t with
  | '-' :: rest => (parseNatDigits rest).map (fun n => -(n : Int))
  | '+' :: rest => (parseNatDigits rest).map (fun n => (n : Int))
  | _ => (parseNatDigits t).map (fun n => (n : Int))

/-- The cookie-attribute object built by the refresh route
(`CookieOptions` in refresh-token/route.ts).  An absent numeric `Max-Age`
value (JavaScript `NaN`) is conflated with an unset `maxAge`. -/
structure CookieOptions where
  httpOnly : Bool := false
  secure : Bool := false
  sameSite : Option JStr := none
  maxAge : Option Int := none
  path : Option JStr := none
deriving DecidableEq

/-- One step of the refresh route's attribute loop (the `options.forEach`
body in refresh-token/route.ts): trim the raw attribute, split it at `=`,
lower-case the key and record only the five recognised attributes. -/
def applyCookieOption (opts : CookieOptions) (o : JStr) : CookieOptions :=
  let parts := jsSplit '=' (jsTrim o)
  let key := jsToLower parts.headI
  let val : Option JStr := parts.get? 1
  if key = str "httponly" then { opts with httpOnly := true }
  else if key = str "secure" then { opts with secure := true }
  else if key = str "samesite" then
    { opts with sameSite := some (match val with
        | some v => if jsToLower v = [] then str "lax" else jsToLower v
        | none => str "lax") }
  else if key = str "max-age" then
    { opts with maxAge := match val with
        | some v => jsParseInt v
        | none => none }
  else if key = str "path" then { opts with path := val }
  else opts

/-- A cookie as re-emitted by the refresh route via `response.cookies.set`. -/
structure EmittedCookie where
  name : JStr
  value : JStr
  opts : CookieOptions
deriving DecidableEq

/-- The refresh route's parsing of one `Set-Cookie` header
(refresh-token/route.ts): split at `;`, destructure the first segment at `=`
into name and value, fold the attribute loop over the remaining segments.
Returns `none` when the JavaScript code would throw a `TypeError`
(first segment without `=`, so `value` is `undefined` and `value.trim()`
throws), which the route's `catch` turns into a 500 response. -/
def parseCookieHeader (h : JStr) : Option EmittedCookie :=
  match jsSplit ';' h with
  | [] => none
  | seg0 :: options =>
    match jsSplit '=' seg0 with
    | [] => none
    | [_] => none
    | nm :: v :: _ =>
      some ⟨jsTrim nm, jsTrim v, options.foldl applyCookieOption {}⟩

/-- Static route configuration from config.ts: page prefixes requiring
authentication. -/
def PROTECTED_PATHS : List JStr := [str "/dashboard", str "/profile", str "/admin"]

/-- Static route configuration from config.ts: always-public pages. -/
def PUBLIC_PATHS : List JStr := [str "/"]

/-- Static route configuration from config.ts: API routes documented as
requiring authentication. -/
def PROTECTED_API_ROUTES : List JStr :=
  [str "/api/users/profile", str "/api/users/settings", str "/api/data", str "/api/admin"]

/-- Static route configuration from config.ts: always-public API routes. -/
def PUBLIC_API_ROUTES : List JStr :=
  [str "/api/users/login", str "/api/users/refresh-token", str "/api/health"]

/-- An access or refresh token as seen by the verifier: whether its signature
verifies against the shared secret, and its `exp` claim (epoch seconds) when
present.  Issuance and signing are external, so the token is abstracted to
the two facts the verifier inspects. -/
structure JWToken where
  sigOk : Bool
  exp : Option Int
deriving DecidableEq

/-- Result of jose's `jwtVerify`: success with the payload's `exp` claim, the
dedicated expiry error (`code === ERR_JWT_EXPIRED`), or any other error
(decode failure, signature mismatch, malformed claim). -/
inductive JoseVerifyResult where
  | ok (exp : Option Int)
  | errExpired
  | errOther
deriving DecidableEq

/-- Model of the jose library's `jwtVerify(token, secret)`.  jose first
checks the compact structure and signature (any failure there is a
non-expiry error), then validates claims; per RFC 7519 and jose's
`jwt_claims_set` validation, an `exp` claim with `exp <= now` (zero
tolerance) raises `JWTExpired` with code `ERR_JWT_EXPIRED`.  A missing `exp`
claim is not an error for jose itself. -/
def jwtVerify (t : JWToken) (now : Int) : JoseVerifyResult :=
  if t.sigOk then
    match t.exp with
    | some e => if e ≤ now then .errExpired else .ok (some e)
    | none => .ok none
  else .errOther

/-- The `{valid, expired}` pair returned by `verifyJWTToken`. -/
structure VerifyStatus where
  valid : Bool
  expired : Bool
deriving DecidableEq

/-- `verifyJWTToken` from middleware.ts: call jose's `jwtVerify`; on success
require a truthy `exp` claim (so `exp = 0` is rejected like a missing claim,
matching the JavaScript `if (!payload.exp)`) and compare it with
`Math.floor(Date.now() / 1000)`; on error, report expired exactly for
`ERR_JWT_EXPIRED` and invalid otherwise.  Both clock reads happen within the
same evaluation and are modelled by the single parameter `now`. -/
def verifyJWTToken (t : JWToken) (now : Int) : VerifyStatus :=
  match jwtVerify t now with
  | .ok none => ⟨false, false⟩
  | .ok (some e) =>
    if e = 0 then ⟨false, false⟩
    else if e < now then ⟨false, true⟩
    else ⟨true, false⟩
  | .errExpired => ⟨false, true⟩
  | .errOther => ⟨false, false⟩

/-- What the Django issuing service does for a renewal attempt: an HTTP
response with a status and a list of `Set-Cookie` headers, or a transport
failure (network error or timeout, which reject the `axios` promise). -/
inductive UpstreamResult where
  | response (status : Nat) (setCookies : List JStr)
  | transportError
deriving DecidableEq

/-- The observable result of the refresh route: HTTP status and the cookies
set on the response. -/
structure RouteResponse where
  status : Nat
  cookies : List EmittedCookie
deriving DecidableEq

/-- `axios` resolves only for 2xx statuses (default `validateStatus`); any
other status rejects the promise and lands in the route's `catch`. -/
def axiosResolves (status : Nat) : Bool :=
  decide (200 ≤ status) && decide (status ≤ 299)

/-- The route's `forEach` over all `Set-Cookie` headers: parse each one in
order; `none` when any header makes the parser throw. -/
def parseCookieHeaders : List JStr → Option (List EmittedCookie)
  | [] => some []
  | h :: hs =>
    match parseCookieHeader h, parseCookieHeaders hs with
    | some c, some cs => some (c :: cs)
    | _, _ => none

/-- `POST` from refresh-token/route.ts: forward the caller's cookies to the
Django refresh endpoint; on a 2xx response other than 200 echo the status
with an error body; on 200 parse every `Set-Cookie` header and re-emit the
parsed cookies on a 200 response; any thrown error (transport failure,
non-2xx status rejected by axios, or a cookie header the parser throws on)
is caught and becomes a 500 response. -/
def POST (upstream : UpstreamResult) : RouteResponse :=
  match upstream with
  | .transportError => ⟨500, []⟩
  | .response st cookies =>
    if axiosResolves st then
      if st ≠ 200 then ⟨st, []⟩
      else
        match parseCookieHeaders cookies with
        | some emitted => ⟨200, emitted⟩
        | none => ⟨500, []⟩
    else ⟨500, []⟩

/-- The `{success, newCookies}` pair returned by `attemptTokenRefresh`. -/
structure RefreshResult where
  success : Bool
  newCookies : Option (List EmittedCookie)
deriving DecidableEq

/-- `fetch`'s `Response.ok`: status in the 2xx range. -/
def fetchOk (status : Nat) : Bool :=
  decide (200 ≤ status) && decide (status ≤ 299)

/-- `attemptTokenRefresh` from middleware.ts: call the frontend's own
refresh route (modelled by composing `POST` with the upstream oracle); on an
ok response report success together with the response's set-cookie material
(`headers.get` yields null when no cookie was set, and the code's
`newCookies || undefined` collapses that to undefined, modelled as `none`);
on a non-ok response or a thrown fetch error report failure.  The function
performs exactly one fetch: no retry, no backoff. -/
def attemptTokenRefresh (upstream : UpstreamResult) : RefreshResult :=
  let resp := POST upstream
  if fetchOk resp.status then
    ⟨true, if resp.cookies = [] then none else some resp.cookies⟩
  else ⟨false, none⟩

/-- An inbound request as the middleware observes it: the pathname, the
`access_token` cookie parsed as a token (or absent), and the oracle for what
the issuing service would answer if a renewal were attempted. -/
structure Request where
  path : JStr
  accessToken : Option JWToken
  upstream : UpstreamResult
deriving DecidableEq

/-- The `{authenticated, needsRefresh, newCookies}` object returned by
`isAuthenticated`. -/
structure AuthOutcome where
  authenticated : Bool
  needsRefresh : Bool
  newCookies : Option (List EmittedCookie)
deriving DecidableEq

/-- `isAuthenticated` from middleware.ts, paired with the number of times it
invokes `attemptTokenRefresh`: no cookie means unauthenticated; a valid
token authenticates directly; an expired token triggers exactly one refresh
attempt whose success authenticates with the new cookies; everything else is
unauthenticated without any refresh call. -/
def isAuthenticated (req : Request) (now : Int) : AuthOutcome × Nat :=
  match req.accessToken with
  | none => (⟨false, false, none⟩, 0)
  | some tok =>
    let v := verifyJWTToken tok now
    if v.valid then (⟨true, false, none⟩, 0)
    else if v.expired then
      let r := attemptTokenRefresh req.upstream
      if r.success then (⟨true, true, r.newCookies⟩, 1)
      else (⟨false, false, none⟩, 1)
    else (⟨false, false, none⟩, 0)

/-- The middleware's observable outcome: pass the request through, pass it
through while attaching renewed cookies to the response, or redirect. -/
inductive Outcome where
  | next
  | nextWithCookies (cookies : List EmittedCookie)
  | redirect (target : JStr)
deriving DecidableEq

/-- The fixed login destination `new URL('/', request.url)`. -/
def loginPath : JStr := str "/"

/-- `middleware` from middleware.ts, paired with the number of refresh
calls: if no entry of `PROTECTED_PATHS` is a character prefix of the path
(`path.startsWith`), pass through immediately; otherwise consult
`isAuthenticated` and either redirect to the login page, pass through with
the renewed cookies when a refresh happened and produced cookies, or pass
through plainly. -/
def middleware (req : Request) (now : Int) : Outcome × Nat :=
  let isProtectedPage := PROTECTED_PATHS.any (fun p => p.isPrefixOf req.path)
  if !isProtectedPage then (.next, 0)
  else
    let ac := isAuthenticated req now
    if !ac.1.authenticated then (.redirect loginPath, ac.2)
    else
      match ac.1.needsRefresh, ac.1.newCookies with
      | true, some cs => (.nextWithCookies cs, ac.2)
      | _, _ => (.next, ac.2)

/-- Splitting a string that does not contain the separator yields the whole
string as the only segment. -/
theorem jsSplit_of_not_mem (sep : Char) (s : JStr) (h : sep ∉ s) :
    jsSplit sep s = [s] := by
  induction s with
  | nil => rfl
  | cons c cs ih =>
    have hc : ¬ c = sep := fun hce => h (hce ▸ List.mem_cons_self c cs)
    have ih' := ih (fun hm => h (List.mem_cons_of_mem _ hm))
    simp [jsSplit, hc, ih']

/-- Splitting peels off a separator-free first segment. -/
theorem jsSplit_append (sep : Char) (a b : JStr) (h : sep ∉ a) :
    jsSplit sep (a ++ sep :: b) = a :: jsSplit sep b := by
  induction a with
  | nil => simp [jsSplit]
  | cons c a' ih =>
    have hc : ¬ c = sep := fun hce => h (hce ▸ List.mem_cons_self c a')
    have ih' := ih (fun hm => h (List.mem_cons_of_mem _ hm))
    simp [jsSplit, hc, ih']

/-- `dropWhile` on whitespace is the identity on whitespace-free strings. -/
theorem dropWhile_ws_eq_self (s : JStr) (h : ∀ c ∈ s, c.isWhitespace = false) :
    s.dropWhile Char.isWhitespace = s := by
  cases s with
  | nil => rfl
  | cons c cs => simp [List.dropWhile_cons, h c (List.mem_cons_self c cs)]

/-- `jsTrim` is the identity on whitespace-free strings. -/
theorem jsTrim_eq_self (s : JStr) (h : ∀ c ∈ s, c.isWhitespace = false) :
    jsTrim s = s := by
  unfold jsTrim
  rw [dropWhile_ws_eq_self s h]
  rw [dropWhile_ws_eq_self s.reverse (fun c hc => h c (List.mem_reverse.mp hc))]
  exact List.reverse_reverse s

/-- Parsing a well-formed `name=value; tail` header: the first `;`-segment is
destructured at its first two `=` occurrences and the attribute loop runs
over the remaining segments. -/
theorem parseCookieHeader_std (nm v tail : JStr)
    (hnm1 : ';' ∉ nm) (hnm2 : '=' ∉ nm) (hv1 : ';' ∉ v) (hv2 : '=' ∉ v) :
    parseCookieHeader ((nm ++ '=' :: v) ++ ';' :: tail) =
      some ⟨jsTrim nm, jsTrim v, (jsSplit ';' tail).foldl applyCookieOption {}⟩ := by
  have hseg : (';' : Char) ∉ nm ++ '=' :: v := by
    intro hm
    rcases List.mem_append.mp hm with h' | h'
    · exact hnm1 h'
    · rcases List.mem_cons.mp h' with h'' | h''
      · exact absurd h'' (by decide)
      · exact hv1 h''
  have h1 : jsSplit ';' ((nm ++ '=' :: v) ++ ';' :: tail) =
      (nm ++ '=' :: v) :: jsSplit ';' tail := jsSplit_append ';' _ tail hseg
  have h2 : jsSplit '=' (nm ++ '=' :: v) = nm :: [v] := by
    rw [jsSplit_append '=' nm v hnm2, jsSplit_of_not_mem '=' v hv2]
  rw [parseCookieHeader, h1]
  simp [h2]

/-- C1: the claim says a protected endpoint request with invalid or missing
credentials is rejected with an unauthorized status and never redirected.
The middleware classifies only against `PROTECTED_PATHS` (page prefixes), so
`/api/users/profile` — an entry of `PROTECTED_API_ROUTES` — is passed
through unconditionally for every credential state and upstream behaviour:
the gate neither rejects with a status nor redirects, it admits.  This
contradicts the middleware's own documentation and the repository README,
which both state that protected API routes receive a 401. -/
theorem c1_protected_endpoint_admitted_unconditionally :
    (str "/api/users/profile") ∈ PROTECTED_API_ROUTES ∧
    ∀ (tok : Option JWToken) (u : UpstreamResult) (now : Int),
      middleware ⟨str "/api/users/profile", tok, u⟩ now = (Outcome.next, 0) := by
  refine ⟨by decide, fun tok u now => ?_⟩
  have hfalse : PROTECTED_PATHS.any
      (fun p => p.isPrefixOf (str "/api/users/profile")) = false := by decide
  simp [middleware, hfalse]

/-- C3: for a token whose signature verifies and which carries an expiry
claim, `verifyJWTToken` reports expired exactly when the current time is
greater than or equal to the claim; in particular a token whose expiry
equals the current time is classified expired, not valid. -/
theorem c3_expired_iff_now_ge_exp (t : JWToken) (now e : Int)
    (hsig : t.sigOk = true) (hexp : t.exp = some e) :
    ((verifyJWTToken t now).expired = true ↔ e ≤ now) ∧
    (e = now → verifyJWTToken t now = ⟨false, true⟩) := by
  constructor
  · by_cases hle : e ≤ now
    · simp [verifyJWTToken, jwtVerify, hsig, hexp, hle]
    · by_cases h0 : e = 0
      · subst h0
        simp [verifyJWTToken, jwtVerify, hsig, hexp, hle]
      · have hlt : ¬ e < now := by omega
        simp [verifyJWTToken, jwtVerify, hsig, hexp, hle, h0, hlt]
  · intro he
    subst he
    simp [verifyJWTToken, jwtVerify, hsig, hexp]

/-- Witness for C3 at a concrete boundary input: a signature-valid token
whose expiry claim equals the current time is expired. -/
theorem c3_expired_iff_now_ge_exp_witness :
    (((verifyJWTToken ⟨true, some 5⟩ 5).expired = true ↔ (5 : Int) ≤ 5) ∧
     ((5 : Int) = 5 → verifyJWTToken ⟨true, some 5⟩ 5 = ⟨false, true⟩)) :=
  c3_expired_iff_now_ge_exp ⟨true, some 5⟩ 5 5 rfl rfl

/-- C4: every path in the public API allow-list is admitted by the gate for
every credential state and upstream behaviour; in particular
`/api/users/login` is never treated as protected. -/
theorem c4_public_api_routes_admitted (p : JStr) (hp : p ∈ PUBLIC_API_ROUTES)
    (tok : Option JWToken) (u : UpstreamResult) (now : Int) :
    middleware ⟨p, tok, u⟩ now = (Outcome.next, 0) := by
  have hfalse : PROTECTED_PATHS.any (fun q => q.isPrefixOf p) = false := by
    fin_cases hp <;> decide
  simp [middleware, hfalse]

/-- Witness for C4: `/api/users/login` with no credentials is admitted. -/
theorem c4_public_api_routes_admitted_witness :
    middleware ⟨str "/api/users/login", none, .transportError⟩ 0 = (Outcome.next, 0) :=
  c4_public_api_routes_admitted (str "/api/users/login") (by decide) none .transportError 0

/-- C5: a request whose path matches no protected prefix is admitted
unconditionally, whatever its credential state. -/
theorem c5_unprotected_path_admitted (req : Request) (now : Int)
    (h : ∀ e ∈ PROTECTED_PATHS, e.isPrefixOf req.path = false) :
    middleware req now = (Outcome.next, 0) := by
  have h1 := h (str "/dashboard") (by decide)
  have h2 := h (str "/profile") (by decide)
  have h3 := h (str "/admin") (by decide)
  have hfalse : PROTECTED_PATHS.any (fun p => p.isPrefixOf req.path) = false := by
    simp [PROTECTED_PATHS, h1, h2, h3]
  simp [middleware, hfalse]

/-- Witness for C5: path `/` with zero cookies is admitted. -/
theorem c5_unprotected_path_admitted_witness :
    middleware ⟨str "/", none, .transportError⟩ 0 = (Outcome.next, 0) :=
  c5_unprotected_path_admitted ⟨str "/", none, .transportError⟩ 0 (by decide)

/-- C9: page protection is raw string-prefix matching: whenever some entry of
`PROTECTED_PATHS` is a character prefix of the request path, the gate
demands authentication — with no access credential it redirects to login
rather than admitting, even when the entry is not a whole path segment. -/
theorem c9_prefix_match_requires_auth (req : Request) (now : Int)
    (h : ∃ e ∈ PROTECTED_PATHS, e.isPrefixOf req.path = true)
    (hnone : req.accessToken = none) :
    middleware req now = (Outcome.redirect loginPath, 0) := by
  have hp : PROTECTED_PATHS.any (fun p => p.isPrefixOf req.path) = true := by
    rcases h with ⟨e, he, hpre⟩
    exact List.any_eq_true.mpr ⟨e, he, hpre⟩
  simp [middleware, hp, isAuthenticated, hnone]

/-- Witness for C9: `/profilephoto` starts with `/profile` without `/profile`
being a whole segment, and with no credentials it is redirected. -/
theorem c9_prefix_match_requires_auth_witness :
    middleware ⟨str "/profilephoto", none, .transportError⟩ 0 =
      (Outcome.redirect loginPath, 0) :=
  c9_prefix_match_requires_auth ⟨str "/profilephoto", none, .transportError⟩ 0
    (by decide) rfl

/-- C6: renewal is invoked only on an expired verification result:
`isAuthenticated` makes at most one refresh call, any refresh call implies
the access token was present and verified as expired (not valid), and a
request carrying a valid unexpired token is admitted with zero refresh
calls. -/
theorem c6_refresh_only_on_expired :
    (∀ (req : Request) (now : Int),
       (isAuthenticated req now).2 ≤ 1 ∧
       ((isAuthenticated req now).2 = 1 →
         ∃ t, req.accessToken = some t ∧
           (verifyJWTToken t now).valid = false ∧
           (verifyJWTToken t now).expired = true)) ∧
    (∀ (req : Request) (t : JWToken) (now : Int),
       req.accessToken = some t → (verifyJWTToken t now).valid = true →
       middleware req now = (Outcome.next, 0)) := by
  constructor
  · intro req now
    cases hat : req.accessToken with
    | none => simp [isAuthenticated, hat]
    | some tok =>
      rcases hv : (verifyJWTToken tok now).valid with _ | _
      · rcases he : (verifyJWTToken tok now).expired with _ | _
        · simp [isAuthenticated, hat, hv, he]
        · rcases hs : (attemptTokenRefresh req.upstream).success with _ | _
          · refine ⟨by simp [isAuthenticated, hat, hv, he, hs], fun _ => ⟨tok, rfl, hv, he⟩⟩
          · refine ⟨by simp [isAuthenticated, hat, hv, he, hs], fun _ => ⟨tok, rfl, hv, he⟩⟩
      · simp [isAuthenticated, hat, hv]
  · intro req t now hat hv
    have hauth : isAuthenticated req now = (⟨true, false, none⟩, 0) := by
      simp [isAuthenticated, hat, hv]
    rcases hp : PROTECTED_PATHS.any (fun p => p.isPrefixOf req.path) with _ | _
    · simp [middleware, hp]
    · simp [middleware, hp, hauth]

/-- Witness for C6: a protected path with a valid, unexpired access token is
admitted without any refresh call. -/
theorem c6_refresh_only_on_expired_witness :
    middleware ⟨str "/dashboard", some ⟨true, some 10⟩, .transportError⟩ 5 =
      (Outcome.next, 0) :=
  c6_refresh_only_on_expired.2 ⟨str "/dashboard", some ⟨true, some 10⟩, .transportError⟩
    ⟨true, some 10⟩ 5 rfl (by decide)

/-- C7: the verifier fails closed — a signature failure or a missing expiry
claim yields the invalid result (never valid, never expired) — and the gate
never admits by default: a protected request is either redirected to login
or justified by a present token that is valid or expired-with-successful-
renewal. -/
theorem c7_fails_closed :
    (∀ (t : JWToken) (now : Int), t.sigOk = false ∨ t.exp = none →
       verifyJWTToken t now = ⟨false, false⟩) ∧
    (∀ (req : Request) (now : Int),
       PROTECTED_PATHS.any (fun p => p.isPrefixOf req.path) = true →
       (middleware req now).1 = Outcome.redirect loginPath ∨
       ∃ t, req.accessToken = some t ∧
         ((verifyJWTToken t now).valid = true ∨
          ((verifyJWTToken t now).expired = true ∧
           (attemptTokenRefresh req.upstream).success = true))) := by
  constructor
  · intro t now h
    rcases h with h | h
    · simp [verifyJWTToken, jwtVerify, h]
    · rcases hs : t.sigOk with _ | _
      · simp [verifyJWTToken, jwtVerify, hs]
      · simp [verifyJWTToken, jwtVerify, hs, h]
  · intro req now hp
    cases hat : req.accessToken with
    | none => exact Or.inl (by simp [middleware, hp, isAuthenticated, hat])
    | some tok =>
      rcases hv : (verifyJWTToken tok now).valid with _ | _
      · rcases he : (verifyJWTToken tok now).expired with _ | _
        · exact Or.inl (by simp [middleware, hp, isAuthenticated, hat, hv, he])
        · rcases hs : (attemptTokenRefresh req.upstream).success with _ | _
          · exact Or.inl (by simp [middleware, hp, isAuthenticated, hat, hv, he, hs])
          · exact Or.inr ⟨tok, rfl, Or.inr ⟨he, rfl⟩⟩
      · exact Or.inr ⟨tok, rfl, Or.inl hv⟩

/-- Witness for C7: a token with a bad signature is invalid, and a protected
request carrying it with a failing upstream is redirected. -/
theorem c7_fails_closed_witness :
    verifyJWTToken ⟨false, some 3⟩ 0 = ⟨false, false⟩ ∧
    ((middleware ⟨str "/dashboard", none, .transportError⟩ 0).1 =
        Outcome.redirect loginPath ∨
     ∃ t, (none : Option JWToken) = some t ∧
       ((verifyJWTToken t 0).valid = true ∨
        ((verifyJWTToken t 0).expired = true ∧
         (attemptTokenRefresh .transportError).success = true))) :=
  ⟨c7_fails_closed.1 ⟨false, some 3⟩ 0 (Or.inl rfl),
   c7_fails_closed.2 ⟨str "/dashboard", none, .transportError⟩ 0 (by decide)⟩

/-- C8 counterexample: the claim says any non-success response from the
issuing service yields Failure and routes to denial, where per the external
interface a success response is exactly status 200.  A 204 response is not
a success response, yet `attemptTokenRefresh` reports success (the refresh
route echoes the 2xx status and `fetch`'s `ok` accepts any 2xx), and a
protected page request with an expired token is then admitted rather than
denied. -/
theorem c8_counterexample_204_treated_as_success :
    attemptTokenRefresh (.response 204 []) = ⟨true, none⟩ ∧
    middleware ⟨str "/dashboard", some ⟨true, some 1⟩, .response 204 []⟩ 5 =
      (Outcome.next, 1) := by decide

/-- C8 as amended: any response from the issuing service with a status
outside the 2xx range, and any transport error or timeout, yields Failure
with no retry; and for a protected page — the only classification that ever
invokes renewal — a failed renewal immediately routes the request to the
redirect denial, with exactly one renewal call made. -/
theorem c8_renewal_failure_is_terminal :
    (∀ (st : Nat) (cs : List JStr), ¬(200 ≤ st ∧ st ≤ 299) →
       attemptTokenRefresh (.response st cs) = ⟨false, none⟩) ∧
    attemptTokenRefresh .transportError = ⟨false, none⟩ ∧
    (∀ (req : Request) (t : JWToken) (now : Int),
       PROTECTED_PATHS.any (fun p => p.isPrefixOf req.path) = true →
       req.accessToken = some t →
       (verifyJWTToken t now).valid = false →
       (verifyJWTToken t now).expired = true →
       (attemptTokenRefresh req.upstream).success = false →
       middleware req now = (Outcome.redirect loginPath, 1)) := by
  refine ⟨?_, by decide, ?_⟩
  · intro st cs h
    have hax : axiosResolves st = false := by
      simp only [axiosResolves, Bool.and_eq_false_iff, decide_eq_false_iff_not]
      omega
    have hpost : POST (.response st cs) = ⟨500, []⟩ := by
      simp [POST, hax]
    simp [attemptTokenRefresh, hpost, fetchOk]
  · intro req t now hp hat hv he hs
    simp [middleware, hp, isAuthenticated, hat, hv, he, hs]

/-- Witness for C8 as amended: a 401 from the issuing service is a Failure,
a transport error is a Failure, and a protected page request with an expired
token and a failing upstream is redirected after exactly one renewal call. -/
theorem c8_renewal_failure_is_terminal_witness :
    attemptTokenRefresh (.response 401 []) = ⟨false, none⟩ ∧
    attemptTokenRefresh .transportError = ⟨false, none⟩ ∧
    middleware ⟨str "/dashboard", some ⟨true, some 1⟩, .response 401 []⟩ 5 =
      (Outcome.redirect loginPath, 1) :=
  ⟨c8_renewal_failure_is_terminal.1 401 [] (by omega),
   c8_renewal_failure_is_terminal.2.1,
   c8_renewal_failure_is_terminal.2.2
     ⟨str "/dashboard", some ⟨true, some 1⟩, .response 401 []⟩ ⟨true, some 1⟩ 5
     (by decide) rfl (by decide) (by decide) (by decide)⟩

/-- C2 counterexample: the claim says each set-credential directive is
re-emitted with its name and value preserved verbatim.  For the directive
`access_token=abc=def; Path=/; HttpOnly` the renewal succeeds and the gate
re-emits the cookie, but the value is truncated to `abc`: the parser splits
the first segment at every `=` and keeps only the second piece, so the
portion after the second `=` is dropped and the emitted value differs from
the directive's value `abc=def`. -/
theorem c2_counterexample_value_truncated :
    middleware ⟨str "/dashboard", some ⟨true, some 1⟩,
        .response 200 [str "access_token=abc=def; Path=/; HttpOnly"]⟩ 5 =
      (Outcome.nextWithCookies
        [⟨str "access_token", str "abc",
          { httpOnly := true, path := some (str "/") }⟩], 1) ∧
    str "abc" ≠ str "abc=def" := by decide

/-- C2 as amended: for a successful renewal whose directives' cookie values
contain no `=` (and no `;` or whitespace, as with standard JWT token
values), the gate admits the protected page request and re-emits the full
replacement credential pair with name, value, max-age, path, samesite
policy (lower-cased) and http-only flag preserved. -/
theorem c2_renewed_pair_attributes_preserved (va vr : JStr)
    (ha1 : ';' ∉ va) (ha2 : '=' ∉ va) (ha3 : ∀ c ∈ va, c.isWhitespace = false)
    (hr1 : ';' ∉ vr) (hr2 : '=' ∉ vr) (hr3 : ∀ c ∈ vr, c.isWhitespace = false) :
    middleware ⟨str "/dashboard", some ⟨true, some 1⟩,
        .response 200
          [(str "access_token" ++ '=' :: va) ++
             ';' :: str " Max-Age=60; Path=/; SameSite=Lax; HttpOnly",
           (str "refresh_token" ++ '=' :: vr) ++
             ';' :: str " Max-Age=86400; Path=/; SameSite=Lax; HttpOnly"]⟩ 5 =
      (Outcome.nextWithCookies
        [⟨str "access_token", va, ⟨true, false, some (str "lax"), some 60, some (str "/")⟩⟩,
         ⟨str "refresh_token", vr, ⟨true, false, some (str "lax"), some 86400, some (str "/")⟩⟩],
       1) := by
  have hA := parseCookieHeader_std (str "access_token") va
    (str " Max-Age=60; Path=/; SameSite=Lax; HttpOnly")
    (by decide) (by decide) ha1 ha2
  have hR := parseCookieHeader_std (str "refresh_token") vr
    (str " Max-Age=86400; Path=/; SameSite=Lax; HttpOnly")
    (by decide) (by decide) hr1 hr2
  rw [jsTrim_eq_self va ha3] at hA
  rw [jsTrim_eq_self vr hr3] at hR
  have hTA : jsTrim (str "access_token") = str "access_token" := by decide
  have hTR : jsTrim (str "refresh_token") = str "refresh_token" := by decide
  have hFA : (jsSplit ';' (str " Max-Age=60; Path=/; SameSite=Lax; HttpOnly")).foldl
      applyCookieOption {} =
      (⟨true, false, some (str "lax"), some 60, some (str "/")⟩ : CookieOptions) := by
    decide
  have hFR : (jsSplit ';' (str " Max-Age=86400; Path=/; SameSite=Lax; HttpOnly")).foldl
      applyCookieOption {} =
      (⟨true, false, some (str "lax"), some 86400, some (str "/")⟩ : CookieOptions) := by
    decide
  rw [hTA, hFA] at hA
  rw [hTR, hFR] at hR
  simp only [List.append_assoc, List.cons_append] at hA hR
  have hmap : parseCookieHeaders
      [str "access_token" ++ '=' :: (va ++ ';' :: str " Max-Age=60; Path=/; SameSite=Lax; HttpOnly"),
       str "refresh_token" ++ '=' :: (vr ++ ';' :: str " Max-Age=86400; Path=/; SameSite=Lax; HttpOnly")] =
      some [⟨str "access_token", va, ⟨true, false, some (str "lax"), some 60, some (str "/")⟩⟩,
            ⟨str "refresh_token", vr, ⟨true, false, some (str "lax"), some 86400, some (str "/")⟩⟩] := by
    simp [parseCookieHeaders, hA, hR]
  have hax : axiosResolves 200 = true := by decide
  have hpost : POST (.response 200
      [str "access_token" ++ '=' :: (va ++ ';' :: str " Max-Age=60; Path=/; SameSite=Lax; HttpOnly"),
       str "refresh_token" ++ '=' :: (vr ++ ';' :: str " Max-Age=86400; Path=/; SameSite=Lax; HttpOnly")]) =
      ⟨200, [⟨str "access_token", va, ⟨true, false, some (str "lax"), some 60, some (str "/")⟩⟩,
             ⟨str "refresh_token", vr, ⟨true, false, some (str "lax"), some 86400, some (str "/")⟩⟩]⟩ := by
    simp [POST, hax, hmap]
  have hok : fetchOk 200 = true := by decide
  have hrefresh : attemptTokenRefresh (.response 200
      [str "access_token" ++ '=' :: (va ++ ';' :: str " Max-Age=60; Path=/; SameSite=Lax; HttpOnly"),
       str "refresh_token" ++ '=' :: (vr ++ ';' :: str " Max-Age=86400; Path=/; SameSite=Lax; HttpOnly")]) =
      ⟨true, some [⟨str "access_token", va, ⟨true, false, some (str "lax"), some 60, some (str "/")⟩⟩,
             ⟨str "refresh_token", vr, ⟨true, false, some (str "lax"), some 86400, some (str "/")⟩⟩]⟩ := by
    simp [attemptTokenRefresh, hpost, hok]
  have hverify : verifyJWTToken ⟨true, some 1⟩ 5 = ⟨false, true⟩ := by decide
  have hprot : PROTECTED_PATHS.any (fun p => p.isPrefixOf (str "/dashboard")) = true := by
    decide
  simp [middleware, hprot, isAuthenticated, hverify, hrefresh]

/-- Witness for C2 as amended: concrete replacement token values. -/
theorem c2_renewed_pair_attributes_preserved_witness :
    middleware ⟨str "/dashboard", some ⟨true, some 1⟩,
        .response 200
          [(str "access_token" ++ '=' :: str "newacc") ++
             ';' :: str " Max-Age=60; Path=/; SameSite=Lax; HttpOnly",
           (str "refresh_token" ++ '=' :: str "newref") ++
             ';' :: str " Max-Age=86400; Path=/; SameSite=Lax; HttpOnly"]⟩ 5 =
      (Outcome.nextWithCookies
        [⟨str "access_token", str "newacc",
          ⟨true, false, some (str "lax"), some 60, some (str "/")⟩⟩,
         ⟨str "refresh_token", str "newref",
          ⟨true, false, some (str "lax"), some 86400, some (str "/")⟩⟩], 1) :=
  c2_renewed_pair_attributes_preserved (str "newacc") (str "newref")
    (by decide) (by decide) (by decide) (by decide) (by decide) (by decide)

/-- C10: the re-emission mechanism.  First, for a header whose first
`;`-segment is `n=v=w` (with `n` and `v` free of `=`), the emitted name and
value are the trimmed `n` and `v` — everything after the second `=` is
dropped — and the attribute loop runs over the remaining segments.  Second,
an attribute whose trimmed, lower-cased key is none of httponly, secure,
samesite, max-age, path is discarded: it leaves the options unchanged. -/
theorem c10_parse_mechanism :
    (∀ (n v w rest : JStr), ';' ∉ n → '=' ∉ n → ';' ∉ v → '=' ∉ v → ';' ∉ w →
       parseCookieHeader ((n ++ '=' :: v ++ '=' :: w) ++ ';' :: rest) =
         some ⟨jsTrim n, jsTrim v, (jsSplit ';' rest).foldl applyCookieOption {}⟩) ∧
    (∀ (opts : CookieOptions) (o : JStr),
       jsToLower (jsSplit '=' (jsTrim o)).headI ∉
         [str "httponly", str "secure", str "samesite", str "max-age", str "path"] →
       applyCookieOption opts o = opts) := by
  constructor
  · intro n v w rest hn1 hn2 hv1 hv2 hw1
    have hseg : (';' : Char) ∉ n ++ '=' :: v ++ '=' :: w := by
      intro hm
      rcases List.mem_append.mp hm with h' | h'
      · rcases List.mem_append.mp h' with h'' | h''
        · exact hn1 h''
        · rcases List.mem_cons.mp h'' with h3 | h3
          · exact absurd h3 (by decide)
          · exact hv1 h3
      · rcases List.mem_cons.mp h' with h3 | h3
        · exact absurd h3 (by decide)
        · exact hw1 h3
    have h1 : jsSplit ';' ((n ++ '=' :: v ++ '=' :: w) ++ ';' :: rest) =
        (n ++ '=' :: v ++ '=' :: w) :: jsSplit ';' rest :=
      jsSplit_append ';' _ rest hseg
    have h2 : jsSplit '=' (n ++ '=' :: (v ++ '=' :: w)) =
        n :: v :: jsSplit '=' w := by
      rw [jsSplit_append '=' n _ hn2, jsSplit_append '=' v w hv2]
    rw [parseCookieHeader, h1]
    simp [h2]
  · intro opts o h
    simp only [List.mem_cons, List.not_mem_nil, or_false, not_or] at h
    obtain ⟨h1, h2, h3, h4, h5⟩ := h
    simp [applyCookieOption, h1, h2, h3, h4, h5]

/-- Witness for C10: a directive whose value contains `=` loses its tail,
and an `Expires` attribute is discarded. -/
theorem c10_parse_mechanism_witness :
    parseCookieHeader ((str "access_token" ++ '=' :: str "abc" ++ '=' :: str "def") ++
        ';' :: str " Path=/") =
      some ⟨jsTrim (str "access_token"), jsTrim (str "abc"),
        (jsSplit ';' (str " Path=/")).foldl applyCookieOption {}⟩ ∧
    applyCookieOption {} (str " Expires=Wed, 01 Jan 2025") = {} :=
  ⟨c10_parse_mechanism.1 (str "access_token") (str "abc") (str "def") (str " Path=/")
     (by decide) (by decide) (by decide) (by decide) (by decide),
   c10_parse_mechanism.2 {} (str " Expires=Wed, 01 Jan 2025") (by decide)⟩

end NextAuthGate
